import Mathlib

/-!
Verification of the fiber tester controller logic (`fiber_tester.py`).

The Python class `FiberTesterController` is shallowly embedded: its four
mutable fields become the structure `ControllerState`, each method becomes a
pure Lean function from a state (and the method arguments) to the new state
and/or the returned dictionary.  Python dictionaries returned to the caller
are modelled by the inductive type `PyVal` (an association-list dictionary
model), so that presence and absence of keys is expressible.  A method that
can raise an exception is modelled with an `Option` result, `Option.none`
standing for the raised exception; methods that cannot raise return plain
values.  Python truthiness of the `Optional[str]` fields is modelled by
`truthyOptStr` (`None` and the empty string are falsy).  `time.time()` in
`complete_transmission` is modelled by an explicit `now` argument; it only
feeds the `timestamp` field of a history record and no other behaviour
depends on it.
-/

namespace FiberTester

/-- Model of the Python/JSON values appearing in the result dictionaries. -/
inductive PyVal : Type where
  | none : PyVal
  | bool : Bool → PyVal
  | int : Int → PyVal
  | str : String → PyVal
  | list : List PyVal → PyVal
  | dict : List (String × PyVal) → PyVal

/-- Dictionary key lookup: `d[key]` / `key in d`, `Option.none` when absent
or when the value is not a dictionary. -/
def pyLookup (key : String) : PyVal → Option PyVal
  | PyVal.dict entries => entries.lookup key
  | _ => Option.none

/-- One entry of `transmission_history` (the dict built in
`complete_transmission`); `timestamp` is the modelled `time.time()` value. -/
structure HistoryRecord where
  color : String
  number : String
  timestamp : Nat
  message : String
deriving DecidableEq

/-- The mutable fields of `FiberTesterController` (`__init__`). -/
structure ControllerState where
  transmission_history : List HistoryRecord
  current_color : Option String
  current_number : Option String
  is_transmitting : Bool
deriving DecidableEq

/-- `__init__`: fresh controller. -/
def initState : ControllerState :=
  { transmission_history := [], current_color := Option.none,
    current_number := Option.none, is_transmitting := false }

/-- Python truthiness of an `Optional[str]` field: `None` and `""` are falsy. -/
def truthyOptStr : Option String → Bool
  | Option.none => false
  | Option.some s => !(s == "")

/-- Timing constant `DOT_DURATION`. -/
def DOT_DURATION : Int := 200

/-- Timing constant `DASH_DURATION`. -/
def DASH_DURATION : Int := 600

/-- Timing constant `INTRA_LETTER_GAP`. -/
def INTRA_LETTER_GAP : Int := 200

/-- Timing constant `INTER_LETTER_GAP`. -/
def INTER_LETTER_GAP : Int := 600

/-- Timing constant `WORD_GAP` (defined but unused by the compiler). -/
def WORD_GAP : Int := 1400

/-- Timing constant `CONFIRMATION_FLASH`. -/
def CONFIRMATION_FLASH : Int := 1000

/-- The `MORSE_CODE` class dictionary; keys are the single characters
`R G B 0-9`, lookup of any other character is `Option.none` (a `KeyError`
in Python). -/
def MORSE_CODE (c : Char) : Option String :=
  if c = 'R' then Option.some ("·−·")
  else if c = 'G' then Option.some ("−−·")
  else if c = 'B' then Option.some ("−···")
  else if c = '0' then Option.some ("−−−−−")
  else if c = '1' then Option.some ("·−−−−")
  else if c = '2' then Option.some ("··−−−")
  else if c = '3' then Option.some ("···−−")
  else if c = '4' then Option.some ("····−")
  else if c = '5' then Option.some ("·····")
  else if c = '6' then Option.some ("−····")
  else if c = '7' then Option.some ("−−···")
  else if c = '8' then Option.some ("−−−··")
  else if c = '9' then Option.some ("−−−−·")
  else Option.none

/-- `validate_color`: membership in `['Red', 'Green', 'Blue']`. -/
def validate_color (color : String) : Bool :=
  (["Red", "Green", "Blue"] : List String).contains color

/-- Python whitespace stripped by `int(str)` (ASCII part). -/
def isPySpace (c : Char) : Bool :=
  c = ' ' || c = '\t' || c = '\n' || c = '\x0d' || c = '\x0b' || c = '\x0c'

/-- Digit run of a Python integer literal after the optional sign: decimal
digits with single underscores allowed between two digits. -/
def pyDigitsCore (acc : Nat) : List Char → Option Nat
  | [] => Option.some acc
  | c :: rest =>
    if c.isDigit then pyDigitsCore (acc * 10 + (c.toNat - 48)) rest
    else if c = '_' then
      match rest with
      | [] => Option.none
      | d :: rest2 =>
        if d.isDigit then pyDigitsCore (acc * 10 + (d.toNat - 48)) rest2
        else Option.none
    else Option.none

/-- Digit run of a Python integer literal: at least one digit, must start
with a digit. -/
def pyDigits : List Char → Option Nat
  | [] => Option.none
  | c :: rest =>
    if c.isDigit then pyDigitsCore (c.toNat - 48) rest else Option.none

/-- Model of Python `int(s)` on strings (base 10): strips surrounding
whitespace, accepts an optional `+`/`-` sign, then a digit run with
optional underscores; `Option.none` models the raised `ValueError`. -/
def pyIntParse (s : String) : Option Int :=
  let stripped :=
    ((s.toList.dropWhile isPySpace).reverse.dropWhile isPySpace).reverse
  match stripped with
  | [] => Option.none
  | c :: rest =>
    if c = '+' then (pyDigits rest).map (fun n => Int.ofNat n)
    else if c = '-' then (pyDigits rest).map (fun n => -(Int.ofNat n))
    else (pyDigits stripped).map (fun n => Int.ofNat n)

/-- `validate_number`: `int(number)` parses and `0 <= num <= 100`;
the `ValueError` branch returns `False`. -/
def validate_number (number : String) : Bool :=
  match pyIntParse number with
  | Option.some num => decide (0 ≤ num ∧ num ≤ 100)
  | Option.none => false

/-- The error dictionary shape shared by every failure branch. -/
def errorResult (msg : String) : PyVal :=
  PyVal.dict [("success", PyVal.bool false), ("message", PyVal.str msg),
    ("status", PyVal.str ("error"))]

/-- `set_color`: validates, on success stores the color. -/
def set_color (σ : ControllerState) (color : String) :
    ControllerState × PyVal :=
  if validate_color color = false then
    (σ, errorResult ("Invalid color: " ++ color ++
      ". Must be Red, Green, or Blue."))
  else
    ({ σ with current_color := Option.some color },
     PyVal.dict [("success", PyVal.bool true),
       ("message", PyVal.str (color ++ " selected - Enter number")),
       ("status", PyVal.str ("color_selected")),
       ("color", PyVal.str color)])

/-- `set_number`: validates, on success stores the original string; the
message depends on the truthiness of `current_color`. -/
def set_number (σ : ControllerState) (number : String) :
    ControllerState × PyVal :=
  if validate_number number = false then
    (σ, errorResult ("Invalid number: " ++ number ++ ". Must be 0-100."))
  else
    ({ σ with current_number := Option.some number },
     PyVal.dict [("success", PyVal.bool true),
       ("message", PyVal.str
         (if truthyOptStr σ.current_color then
           (σ.current_color.getD "" ++ " " ++ number ++ " ready")
          else
           ("Number " ++ number ++ " set - Select color"))),
       ("status", PyVal.str ("number_set")),
       ("number", PyVal.str number)])

/-- `clear_selection`: unconditionally clears color and number. -/
def clear_selection (σ : ControllerState) : ControllerState × PyVal :=
  ({ σ with current_color := Option.none, current_number := Option.none },
   PyVal.dict [("success", PyVal.bool true),
     ("message", PyVal.str ("Select color and number")),
     ("status", PyVal.str ("cleared"))])

/-- The dot event dictionary built in `_pattern_to_sequence`. -/
def dotEvent (seq_type value : String) : PyVal :=
  PyVal.dict [("type", PyVal.str ("dot")), ("duration", PyVal.int DOT_DURATION),
    ("sequence_type", PyVal.str seq_type), ("value", PyVal.str value),
    ("description", PyVal.str ("Dot (" ++ seq_type ++ ")"))]

/-- The dash event dictionary built in `_pattern_to_sequence`. -/
def dashEvent (seq_type value : String) : PyVal :=
  PyVal.dict [("type", PyVal.str ("dash")),
    ("duration", PyVal.int DASH_DURATION),
    ("sequence_type", PyVal.str seq_type), ("value", PyVal.str value),
    ("description", PyVal.str ("Dash (" ++ seq_type ++ ")"))]

/-- The intra-letter gap event dictionary built in `_pattern_to_sequence`. -/
def intraGapEvent : PyVal :=
  PyVal.dict [("type", PyVal.str ("gap")),
    ("duration", PyVal.int INTRA_LETTER_GAP),
    ("description", PyVal.str ("Intra-letter gap"))]

/-- The inter-letter gap event appended after the color letter in
`calculate_transmission_sequence`. -/
def interLetterGapEvent : PyVal :=
  PyVal.dict [("type", PyVal.str ("gap")),
    ("duration", PyVal.int INTER_LETTER_GAP),
    ("description", PyVal.str ("Inter-letter gap"))]

/-- The inter-letter gap event appended after each digit in
`calculate_transmission_sequence`. -/
def interGapAfterDigit (d : Char) : PyVal :=
  PyVal.dict [("type", PyVal.str ("gap")),
    ("duration", PyVal.int INTER_LETTER_GAP),
    ("description", PyVal.str ("Inter-letter gap after digit " ++
      String.singleton d))]

/-- The confirmation flash event appended last in
`calculate_transmission_sequence`. -/
def confirmationEvent : PyVal :=
  PyVal.dict [("type", PyVal.str ("confirmation")),
    ("duration", PyVal.int CONFIRMATION_FLASH),
    ("description", PyVal.str ("Confirmation flash"))]

/-- The events one loop iteration of `_pattern_to_sequence` emits for one
pattern character: a dot or a dash (other characters emit nothing). -/
def symbolEvents (seq_type value : String) (symbol : Char) : List PyVal :=
  if symbol = '·' then [dotEvent seq_type value]
  else if symbol = '−' then [dashEvent seq_type value]
  else []

/-- `_pattern_to_sequence`: one event per dot/dash of the pattern, an
intra-letter gap after every pattern position except the last. -/
def pattern_to_sequence (pattern seq_type value : String) : List PyVal :=
  let chars := pattern.toList
  (chars.enum).flatMap (fun p =>
    symbolEvents seq_type value p.2 ++
    (if p.1 < chars.length - 1 then [intraGapEvent] else []))

/-- The digit loop of `calculate_transmission_sequence`: for each character
of the stored number string, look up its Morse pattern (`Option.none` models
the `KeyError` on characters outside the table) and append the pattern's
events followed by an inter-letter gap. -/
def digitsToSequence : List Char → Option (List PyVal)
  | [] => Option.some []
  | d :: rest =>
    match MORSE_CODE d with
    | Option.none => Option.none
    | Option.some digit_pattern =>
      match digitsToSequence rest with
      | Option.none => Option.none
      | Option.some tail =>
        Option.some (pattern_to_sequence digit_pattern ("digit")
          (String.singleton d) ++ [interGapAfterDigit d] ++ tail)

/-- `calculate_transmission_sequence`: `[]` when color or number is falsy;
otherwise color-letter events, inter-letter gap, digit events with their
gaps, confirmation flash.  `Option.none` models a raised `KeyError` from a
`MORSE_CODE` lookup. -/
def calculate_transmission_sequence (σ : ControllerState) :
    Option (List PyVal) :=
  if truthyOptStr σ.current_color = false ∨
      truthyOptStr σ.current_number = false then
    Option.some []
  else
    let color := σ.current_color.getD ""
    let number := σ.current_number.getD ""
    let color_letter := (color.toList.headI).toUpper
    match MORSE_CODE color_letter with
    | Option.none => Option.none
    | Option.some color_pattern =>
      match digitsToSequence number.toList with
      | Option.none => Option.none
      | Option.some digitSeq =>
        Option.some (pattern_to_sequence color_pattern ("color") ("") ++
          [interLetterGapEvent] ++ digitSeq ++ [confirmationEvent])

/-- `sum(step['duration'] for step in sequence)`; `Option.none` models the
exception raised when a step lacks an integer `duration`. -/
def sum_durations : List PyVal → Option Int
  | [] => Option.some 0
  | s :: rest =>
    match pyLookup ("duration") s with
    | Option.some (PyVal.int n) =>
      match sum_durations rest with
      | Option.some t => Option.some (n + t)
      | Option.none => Option.none
    | _ => Option.none

/-- `prepare_transmission`: three guard branches, then the compiled sequence
and its total duration.  The method assigns no field, so it returns only the
result dictionary; `Option.none` models a raised exception. -/
def prepare_transmission (σ : ControllerState) : Option PyVal :=
  if truthyOptStr σ.current_color = false then
    Option.some (errorResult ("No color selected"))
  else if truthyOptStr σ.current_number = false then
    Option.some (errorResult ("No number entered"))
  else if σ.is_transmitting then
    Option.some (errorResult ("Transmission already in progress"))
  else
    match calculate_transmission_sequence σ with
    | Option.none => Option.none
    | Option.some sequence =>
      match sum_durations sequence with
      | Option.none => Option.none
      | Option.some total_duration =>
        Option.some (PyVal.dict [("success", PyVal.bool true),
          ("message", PyVal.str ("Transmitting " ++
            σ.current_color.getD "" ++ " " ++ σ.current_number.getD "" ++
            "...")),
          ("status", PyVal.str ("transmitting")),
          ("color", PyVal.str (σ.current_color.getD "")),
          ("number", PyVal.str (σ.current_number.getD "")),
          ("sequence", PyVal.list sequence),
          ("total_duration", PyVal.int total_duration)])

/-- `complete_transmission`: guard on color and number, prepend a history
record, truncate the history to 5 entries, clear the selection and the
transmitting flag.  `now` models `time.time()`. -/
def complete_transmission (σ : ControllerState) (now : Nat) :
    ControllerState × PyVal :=
  if truthyOptStr σ.current_color = false ∨
      truthyOptStr σ.current_number = false then
    (σ, errorResult ("No transmission to complete"))
  else
    let color := σ.current_color.getD ""
    let number := σ.current_number.getD ""
    let record : HistoryRecord :=
      { color := color, number := number, timestamp := now,
        message := color ++ " " ++ number ++ " sent" }
    let history1 := record :: σ.transmission_history
    let history2 := if history1.length > 5 then history1.take 5 else history1
    ({ transmission_history := history2, current_color := Option.none,
       current_number := Option.none, is_transmitting := false },
     PyVal.dict [("success", PyVal.bool true),
       ("message", PyVal.str (color ++ " " ++ number ++ " sent")),
       ("status", PyVal.str ("completed")),
       ("history",
        PyVal.list (history2.map (fun r => PyVal.str r.message)))])

/-- `get_status`: a pure read of the four fields; `ready_to_send` is the
Python truthiness of `color and number and not is_transmitting`. -/
def get_status (σ : ControllerState) : PyVal :=
  PyVal.dict [("color",
      match σ.current_color with
      | Option.none => PyVal.none
      | Option.some s => PyVal.str s),
    ("number",
      match σ.current_number with
      | Option.none => PyVal.none
      | Option.some s => PyVal.str s),
    ("is_transmitting", PyVal.bool σ.is_transmitting),
    ("history",
     PyVal.list (σ.transmission_history.map (fun r => PyVal.str r.message))),
    ("ready_to_send", PyVal.bool (truthyOptStr σ.current_color &&
      truthyOptStr σ.current_number && !σ.is_transmitting))]

/-- The six operations of the controller API; `complete_transmission`
carries its modelled `time.time()` value. -/
inductive Op : Type where
  | set_color (s : String) : Op
  | set_number (s : String) : Op
  | clear_selection : Op
  | prepare_transmission : Op
  | complete_transmission (now : Nat) : Op
  | get_status : Op

/-- The state after one operation.  `prepare_transmission` and `get_status`
assign no field in the source, so they leave the state unchanged. -/
def applyOp (σ : ControllerState) : Op → ControllerState
  | Op.set_color s => (set_color σ s).1
  | Op.set_number s => (set_number σ s).1
  | Op.clear_selection => (clear_selection σ).1
  | Op.prepare_transmission => σ
  | Op.complete_transmission now => (complete_transmission σ now).1
  | Op.get_status => σ

/-- The state of a fresh controller after a sequence of operations. -/
def runOps (ops : List Op) : ControllerState :=
  ops.foldl applyOp initState

/-- A state is reachable when some operation sequence produces it from a
fresh controller. -/
def Reachable (σ : ControllerState) : Prop :=
  ∃ ops : List Op, runOps ops = σ

/-- The inductive invariant of the controller: stored colors are validated
colors, stored numbers are validated numbers, the transmitting flag is
false, and the history holds at most five records. -/
def StateInv (σ : ControllerState) : Prop :=
  (∀ c, σ.current_color = Option.some c → validate_color c = true) ∧
  (∀ n, σ.current_number = Option.some n → validate_number n = true) ∧
  σ.is_transmitting = false ∧
  σ.transmission_history.length ≤ 5

/-- The controller state with color `Blue` and number `7` selected (the
state reached by `set_color('Blue'); set_number('7')`). -/
def blueSevenState : ControllerState :=
  { transmission_history := [], current_color := Option.some ("Blue"),
    current_number := Option.some ("7"), is_transmitting := false }

/-- The event sequence the spec requires for color `Blue`, number `7`:
letter `B` (dash dot dot dot, gaps interleaved), inter-letter gap, digit `7`
(dash dash dot dot dot, gaps interleaved), inter-letter gap, confirmation. -/
def blueSevenSequence : List PyVal :=
  [dashEvent ("color") (""), intraGapEvent, dotEvent ("color") (""),
   intraGapEvent, dotEvent ("color") (""), intraGapEvent,
   dotEvent ("color") (""), interLetterGapEvent,
   dashEvent ("digit") ("7"), intraGapEvent, dashEvent ("digit") ("7"),
   intraGapEvent, dotEvent ("digit") ("7"), intraGapEvent,
   dotEvent ("digit") ("7"), intraGapEvent, dotEvent ("digit") ("7"),
   interGapAfterDigit ('7'), confirmationEvent]

/-- A result dictionary carries a boolean `success` entry and a string
`message` entry. -/
def resultHasFields (r : PyVal) : Bool :=
  (match pyLookup ("success") r with
   | Option.some (PyVal.bool _) => true
   | _ => false) &&
  (match pyLookup ("message") r with
   | Option.some (PyVal.str _) => true
   | _ => false)

/-- A validated color is one of the three nonempty color names. -/
theorem validate_color_ne_empty {c : String} (h : validate_color c = true) :
    ¬(c = "") := by
  intro he
  subst he
  simp [validate_color] at h

/-- A validated number string is nonempty. -/
theorem validate_number_ne_empty {n : String}
    (h : validate_number n = true) : ¬(n = "") := by
  intro he
  subst he
  simp [validate_number, pyIntParse] at h

/-- A stored nonempty string is truthy. -/
theorem truthy_of_ne_empty {s : String} (h : ¬(s = "")) :
    truthyOptStr (Option.some s) = true := by
  simp [truthyOptStr, h]

/-- When every stored string of an optional field is nonempty, its
truthiness agrees with `Option.isSome`. -/
theorem truthyOptStr_eq_isSome {o : Option String}
    (h : ∀ s, o = Option.some s → ¬(s = "")) :
    truthyOptStr o = o.isSome := by
  cases o with
  | none => rfl
  | some s => simp [truthyOptStr, h s rfl]

/-- The fresh controller satisfies the invariant. -/
theorem stateInv_init : StateInv initState := by
  refine ⟨?_, ?_, rfl, ?_⟩ <;> simp [initState]

/-- Every operation preserves the invariant. -/
theorem stateInv_applyOp {σ : ControllerState} (op : Op)
    (h : StateInv σ) : StateInv (applyOp σ op) := by
  obtain ⟨hc, hn, ht, hh⟩ := h
  cases op with
  | set_color s =>
    by_cases hv : validate_color s = false
    · simpa [applyOp, set_color, hv] using ⟨hc, hn, ht, hh⟩
    · refine ⟨?_, ?_, ?_, ?_⟩ <;>
        simp_all [applyOp, set_color, hv]
  | set_number s =>
    by_cases hv : validate_number s = false
    · simpa [applyOp, set_number, hv] using ⟨hc, hn, ht, hh⟩
    · refine ⟨?_, ?_, ?_, ?_⟩ <;>
        simp_all [applyOp, set_number, hv]
  | clear_selection =>
    refine ⟨?_, ?_, ?_, ?_⟩ <;> simp_all [applyOp, clear_selection]
  | prepare_transmission => exact ⟨hc, hn, ht, hh⟩
  | complete_transmission now =>
    show StateInv (complete_transmission σ now).1
    unfold complete_transmission
    split
    · exact ⟨hc, hn, ht, hh⟩
    · refine ⟨?_, ?_, rfl, ?_⟩
      · intro c hcc
        simp at hcc
      · intro n hnn
        simp at hnn
      · simp only [List.length_cons]
        split
        · simp only [List.length_cons, List.length_take]
          omega
        · simp only [List.length_cons] at *
          omega
  | get_status => exact ⟨hc, hn, ht, hh⟩

/-- The invariant is preserved along any operation list. -/
theorem stateInv_foldl (ops : List Op) :
    ∀ σ, StateInv σ → StateInv (ops.foldl applyOp σ) := by
  induction ops with
  | nil => intro σ h; exact h
  | cons op rest ih =>
    intro σ h
    exact ih _ (stateInv_applyOp op h)

/-- Every reachable state satisfies the invariant. -/
theorem reachable_inv {σ : ControllerState} (h : Reachable σ) :
    StateInv σ := by
  obtain ⟨ops, rfl⟩ := h
  exact stateInv_foldl ops initState stateInv_init

/-- With the transmitting flag false, `prepare_transmission` never returns
the in-progress error dictionary. -/
theorem prepare_not_in_progress {σ : ControllerState}
    (h : σ.is_transmitting = false) :
    prepare_transmission σ ≠
      Option.some (errorResult ("Transmission already in progress")) := by
  intro hc
  unfold prepare_transmission at hc
  split at hc
  · simp [errorResult] at hc
  · split at hc
    · simp [errorResult] at hc
    · rw [if_neg] at hc
      · rcases hm : calculate_transmission_sequence σ with _ | seq
        · rw [hm] at hc
          exact Option.noConfusion hc
        · rcases hs : sum_durations seq with _ | t <;>
            simp [hm, hs, errorResult] at hc
      · simp [h]

/-- C1: with color `Blue` and number `7` selected, `prepare_transmission`
succeeds and returns exactly the sequence dash(600), then three dots
(200 each) interleaved with three intra-letter gaps (200 each), an
inter-letter gap (600), digit 7's pattern dash-dash-dot-dot-dot with
intra-letter gaps between its five symbols, another inter-letter gap
(600), and one confirmation event (1000); the returned `total_duration`
is the sum of the nineteen event durations, exactly 6600. -/
theorem C1_blue_seven_exact_sequence :
    prepare_transmission blueSevenState =
      Option.some (PyVal.dict [("success", PyVal.bool true),
        ("message", PyVal.str ("Transmitting Blue 7...")),
        ("status", PyVal.str ("transmitting")),
        ("color", PyVal.str ("Blue")), ("number", PyVal.str ("7")),
        ("sequence", PyVal.list blueSevenSequence),
        ("total_duration", PyVal.int 6600)]) ∧
    sum_durations blueSevenSequence = Option.some 6600 := by
  constructor <;> rfl

/-- C2: the claim that the operations are total fails on the code — the
string `+7` is accepted by `set_number` (Python `int` parses it to 7),
but `prepare_transmission` in the resulting reachable state raises a
`KeyError` looking up the character `+` in `MORSE_CODE` (modelled by the
`Option.none` result). -/
theorem C2_prepare_raises_after_accepted_number :
    validate_number ("+7") = true ∧
    pyLookup ("success") (set_number initState ("+7")).2 =
      Option.some (PyVal.bool true) ∧
    (runOps [Op.set_color ("Blue"), Op.set_number ("+7")]).current_number =
      Option.some ("+7") ∧
    prepare_transmission
      (runOps [Op.set_color ("Blue"), Op.set_number ("+7")]) =
      Option.none := by
  exact ⟨rfl, rfl, rfl, rfl⟩

/-- C3 counterexample: the state reached by `set_number('+7')` is a
reachable state whose stored number string `+7` is accepted but is not a
string of decimal digit characters, refuting the claim as stated. -/
theorem C3_counterexample_nondigit_number :
    Reachable (runOps [Op.set_number ("+7")]) ∧
    (runOps [Op.set_number ("+7")]).current_number = Option.some ("+7") ∧
    ("+7").toList.all Char.isDigit = false := by
  exact ⟨⟨[Op.set_number ("+7")], rfl⟩, rfl, rfl⟩

/-- C3 amended: in every reachable state, whenever `current_number` is set
its stored string is nonempty and parses (by Python `int` rules, sign and
underscores allowed) to an integer value in `[0, 100]`. -/
theorem C3_number_invariant_amended :
    ∀ σ : ControllerState, Reachable σ →
    ∀ n, σ.current_number = Option.some n →
      ¬(n = "") ∧
      ∃ v : Int, pyIntParse n = Option.some v ∧ 0 ≤ v ∧ v ≤ 100 := by
  intro σ hr n hn
  have hv := (reachable_inv hr).2.1 n hn
  refine ⟨validate_number_ne_empty hv, ?_⟩
  unfold validate_number at hv
  rcases hp : pyIntParse n with _ | v
  · rw [hp] at hv
    exact absurd hv (by simp)
  · rw [hp] at hv
    simp at hv
    exact ⟨v, rfl, hv.1, hv.2⟩

/-- C3 witness: the amended invariant instantiated at the reachable state
produced by `set_number('7')`. -/
theorem C3_number_invariant_witness :
    ¬("7" = "") ∧
    ∃ v : Int, pyIntParse ("7") = Option.some v ∧ 0 ≤ v ∧ v ≤ 100 :=
  C3_number_invariant_amended (runOps [Op.set_number ("7")])
    ⟨[Op.set_number ("7")], rfl⟩ ("7") rfl

/-- C4: in every reachable state with both color and number set,
`complete_transmission` prepends exactly one record whose message is
`<Color> <Number> sent`, truncates the history to at most five records in
newest-first order, clears color, number and the transmitting flag, and
reports success with status `completed`; with color or number unset it
returns the error result and changes nothing; and after any operation
sequence the history length is at most five. -/
theorem C4_complete_transmission_spec :
    (∀ σ : ControllerState, ∀ now : Nat, ∀ c n : String,
      Reachable σ → σ.current_color = Option.some c →
      σ.current_number = Option.some n →
      (complete_transmission σ now).1.transmission_history =
        ({ color := c, number := n, timestamp := now,
           message := c ++ " " ++ n ++ " sent" } ::
          σ.transmission_history).take 5 ∧
      (complete_transmission σ now).1.current_color = Option.none ∧
      (complete_transmission σ now).1.current_number = Option.none ∧
      (complete_transmission σ now).1.is_transmitting = false ∧
      pyLookup ("success") (complete_transmission σ now).2 =
        Option.some (PyVal.bool true) ∧
      pyLookup ("status") (complete_transmission σ now).2 =
        Option.some (PyVal.str ("completed")) ∧
      pyLookup ("message") (complete_transmission σ now).2 =
        Option.some (PyVal.str (c ++ " " ++ n ++ " sent"))) ∧
    (∀ σ : ControllerState, ∀ now : Nat,
      σ.current_color = Option.none ∨ σ.current_number = Option.none →
      complete_transmission σ now =
        (σ, errorResult ("No transmission to complete"))) ∧
    (∀ ops : List Op, (runOps ops).transmission_history.length ≤ 5) := by
  refine ⟨?_, ?_, ?_⟩
  · intro σ now c n hr hcc hnn
    have hinv := reachable_inv hr
    have hc' := validate_color_ne_empty (hinv.1 c hcc)
    have hn' := validate_number_ne_empty (hinv.2.1 n hnn)
    have hh := hinv.2.2.2
    have hguard : ¬(truthyOptStr (Option.some c) = false ∨
        truthyOptStr (Option.some n) = false) := by
      simp [truthy_of_ne_empty hc', truthy_of_ne_empty hn']
    refine ⟨?_, ?_, ?_, ?_, ?_, ?_, ?_⟩ <;>
      simp only [complete_transmission, hcc, hnn, if_neg hguard,
        Option.getD_some]
    · split
      · rfl
      · rename_i hlen
        rw [List.take_of_length_le (Nat.le_of_not_lt hlen)]
    all_goals rfl
  · intro σ now h
    unfold complete_transmission
    rw [if_pos]
    rcases h with h | h <;> simp [h, truthyOptStr]
  · intro ops
    exact (reachable_inv ⟨ops, rfl⟩).2.2.2

/-- C4 witness: the success branch instantiated at the reachable state
with color `Blue` and number `7`. -/
theorem C4_complete_transmission_witness :
    (complete_transmission blueSevenState 0).1.transmission_history =
      ({ color := "Blue", number := "7", timestamp := 0,
         message := "Blue" ++ " " ++ "7" ++ " sent" } ::
        blueSevenState.transmission_history).take 5 ∧
    (complete_transmission blueSevenState 0).1.current_color =
      Option.none ∧
    (complete_transmission blueSevenState 0).1.current_number =
      Option.none ∧
    (complete_transmission blueSevenState 0).1.is_transmitting = false ∧
    pyLookup ("success") (complete_transmission blueSevenState 0).2 =
      Option.some (PyVal.bool true) ∧
    pyLookup ("status") (complete_transmission blueSevenState 0).2 =
      Option.some (PyVal.str ("completed")) ∧
    pyLookup ("message") (complete_transmission blueSevenState 0).2 =
      Option.some (PyVal.str ("Blue" ++ " " ++ "7" ++ " sent")) :=
  C4_complete_transmission_spec.1 blueSevenState 0 ("Blue") ("7")
    ⟨[Op.set_color ("Blue"), Op.set_number ("7")], rfl⟩ rfl rfl

/-- C5: starting from a fresh controller, no operation sequence ever makes
`is_transmitting` true — every operation leaves the flag unchanged or sets
it to false — and therefore in every reachable state the
`Transmission already in progress` branch of `prepare_transmission` is
never taken. -/
theorem C5_transmitting_never_true :
    (∀ ops : List Op, (runOps ops).is_transmitting = false) ∧
    (∀ σ : ControllerState, ∀ op : Op,
      (applyOp σ op).is_transmitting = σ.is_transmitting ∨
      (applyOp σ op).is_transmitting = false) ∧
    (∀ σ : ControllerState, Reachable σ →
      prepare_transmission σ ≠
        Option.some (errorResult ("Transmission already in progress"))) := by
  refine ⟨?_, ?_, ?_⟩
  · intro ops
    exact (reachable_inv ⟨ops, rfl⟩).2.2.1
  · intro σ op
    cases op with
    | set_color s =>
      show (set_color σ s).1.is_transmitting = _ ∨
        (set_color σ s).1.is_transmitting = false
      unfold set_color
      split <;> exact Or.inl rfl
    | set_number s =>
      show (set_number σ s).1.is_transmitting = _ ∨
        (set_number σ s).1.is_transmitting = false
      unfold set_number
      split <;> exact Or.inl rfl
    | clear_selection => exact Or.inl rfl
    | prepare_transmission => exact Or.inl rfl
    | complete_transmission now =>
      show (complete_transmission σ now).1.is_transmitting = _ ∨
        (complete_transmission σ now).1.is_transmitting = false
      unfold complete_transmission
      split
      · exact Or.inl rfl
      · exact Or.inr rfl
    | get_status => exact Or.inl rfl
  · intro σ hr
    exact prepare_not_in_progress (reachable_inv hr).2.2.1

/-- C5 witness: the unreachability of the in-progress branch instantiated
at the fresh controller. -/
theorem C5_transmitting_witness :
    prepare_transmission initState ≠
      Option.some (errorResult ("Transmission already in progress")) :=
  C5_transmitting_never_true.2.2 initState ⟨[], rfl⟩

/-- C6: for every state, `set_color` with a string outside
`{Red, Green, Blue}` and `set_number` with a string not parsing to an
integer in `[0, 100]` return the error result (success false, status
`error`) and leave the whole state unchanged. -/
theorem C6_validation_failure_unchanged :
    ∀ σ : ControllerState, ∀ s : String,
      (validate_color s = false →
        set_color σ s = (σ, errorResult ("Invalid color: " ++ s ++
          ". Must be Red, Green, or Blue."))) ∧
      (validate_number s = false →
        set_number σ s = (σ, errorResult ("Invalid number: " ++ s ++
          ". Must be 0-100."))) := by
  intro σ s
  constructor <;> intro h
  · unfold set_color
    rw [if_pos h]
  · unfold set_number
    rw [if_pos h]

/-- C6 witness: the invalid color `Purple` and the out-of-range number
`200` both fail and leave the fresh controller unchanged. -/
theorem C6_validation_witness :
    validate_color ("Purple") = false ∧
    set_color initState ("Purple") = (initState,
      errorResult ("Invalid color: " ++ "Purple" ++
        ". Must be Red, Green, or Blue.")) ∧
    validate_number ("200") = false ∧
    set_number initState ("200") = (initState,
      errorResult ("Invalid number: " ++ "200" ++ ". Must be 0-100.")) :=
  ⟨by decide,
   (C6_validation_failure_unchanged initState ("Purple")).1 (by decide),
   by decide,
   (C6_validation_failure_unchanged initState ("200")).2 (by decide)⟩

/-- C7: in every reachable state, `get_status` returns
`ready_to_send = true` exactly when color and number are set and
`is_transmitting` is false (and a boolean false in every other
combination), and `get_status` mutates no state. -/
theorem C7_ready_to_send_iff :
    ∀ σ : ControllerState, Reachable σ →
      pyLookup ("ready_to_send") (get_status σ) =
        Option.some (PyVal.bool (σ.current_color.isSome &&
          (σ.current_number.isSome && !σ.is_transmitting))) ∧
      (pyLookup ("ready_to_send") (get_status σ) =
          Option.some (PyVal.bool true) ↔
        (σ.current_color ≠ Option.none ∧ σ.current_number ≠ Option.none ∧
          σ.is_transmitting = false)) ∧
      applyOp σ Op.get_status = σ := by
  intro σ hr
  have hinv := reachable_inv hr
  have hcs : truthyOptStr σ.current_color = σ.current_color.isSome :=
    truthyOptStr_eq_isSome
      (fun s hs => validate_color_ne_empty (hinv.1 s hs))
  have hns : truthyOptStr σ.current_number = σ.current_number.isSome :=
    truthyOptStr_eq_isSome
      (fun s hs => validate_number_ne_empty (hinv.2.1 s hs))
  have hl : pyLookup ("ready_to_send") (get_status σ) =
      Option.some (PyVal.bool (σ.current_color.isSome &&
        (σ.current_number.isSome && !σ.is_transmitting))) := by
    simp [get_status, pyLookup, List.lookup, hcs, hns, Bool.and_assoc]
  refine ⟨hl, ?_, rfl⟩
  rw [hl]
  simp [Option.isSome_iff_ne_none, and_assoc]

/-- C7 witness: instantiated at the fresh controller, `ready_to_send` is
false because no color and no number are set. -/
theorem C7_ready_to_send_witness :
    pyLookup ("ready_to_send") (get_status initState) =
      Option.some (PyVal.bool (initState.current_color.isSome &&
        (initState.current_number.isSome && !initState.is_transmitting))) ∧
    (pyLookup ("ready_to_send") (get_status initState) =
        Option.some (PyVal.bool true) ↔
      (initState.current_color ≠ Option.none ∧
        initState.current_number ≠ Option.none ∧
        initState.is_transmitting = false)) ∧
    applyOp initState Op.get_status = initState :=
  C7_ready_to_send_iff initState ⟨[], rfl⟩

/-- C8: `clear_selection` always succeeds with status `cleared`, unsets
color and number, leaves the history and the transmitting flag untouched,
and is idempotent. -/
theorem C8_clear_selection_frame :
    ∀ σ : ControllerState,
      (clear_selection σ).1.current_color = Option.none ∧
      (clear_selection σ).1.current_number = Option.none ∧
      (clear_selection σ).1.transmission_history =
        σ.transmission_history ∧
      (clear_selection σ).1.is_transmitting = σ.is_transmitting ∧
      (clear_selection σ).2 = PyVal.dict [("success", PyVal.bool true),
        ("message", PyVal.str ("Select color and number")),
        ("status", PyVal.str ("cleared"))] ∧
      (clear_selection (clear_selection σ).1).1 = (clear_selection σ).1 :=
  fun _ => ⟨rfl, rfl, rfl, rfl, rfl, rfl⟩

/-- C9 counterexample: the result of `get_status` carries neither a
`success` nor a `message` entry, already on the fresh controller,
refuting the claim for the operation `get_status`. -/
theorem C9_counterexample_get_status :
    pyLookup ("success") (get_status initState) = Option.none ∧
    pyLookup ("message") (get_status initState) = Option.none :=
  ⟨rfl, rfl⟩

/-- C9 amended: the five operations `set_color`, `set_number`,
`clear_selection`, `prepare_transmission` (whenever it returns) and
`complete_transmission` always return a dictionary with a boolean
`success` and a string `message` entry; `get_status` returns neither. -/
theorem C9_success_message_fields :
    ∀ σ : ControllerState, ∀ s : String, ∀ now : Nat,
      resultHasFields (set_color σ s).2 = true ∧
      resultHasFields (set_number σ s).2 = true ∧
      resultHasFields (clear_selection σ).2 = true ∧
      (∀ r, prepare_transmission σ = Option.some r →
        resultHasFields r = true) ∧
      resultHasFields (complete_transmission σ now).2 = true ∧
      pyLookup ("success") (get_status σ) = Option.none ∧
      pyLookup ("message") (get_status σ) = Option.none := by
  intro σ s now
  refine ⟨?_, ?_, rfl, ?_, ?_, rfl, rfl⟩
  · unfold set_color
    split <;> rfl
  · unfold set_number
    split <;> rfl
  · intro r hx
    unfold prepare_transmission at hx
    split at hx
    · rw [Option.some.injEq] at hx
      subst hx
      rfl
    · split at hx
      · rw [Option.some.injEq] at hx
        subst hx
        rfl
      · split at hx
        · rw [Option.some.injEq] at hx
          subst hx
          rfl
        · rcases hm : calculate_transmission_sequence σ with _ | seq <;>
            rw [hm] at hx
          · exact Option.noConfusion hx
          · dsimp only at hx
            rcases hs : sum_durations seq with _ | t <;> rw [hs] at hx
            · exact Option.noConfusion hx
            · dsimp only at hx
              rw [Option.some.injEq] at hx
              subst hx
              rfl
  · show resultHasFields (complete_transmission σ now).2 = true
    unfold complete_transmission
    split <;> rfl

/-- C9 witness: the amended field guarantees instantiated at the fresh
controller (with `prepare_transmission` returning the no-color error). -/
theorem C9_success_message_witness :
    resultHasFields (set_color initState ("x")).2 = true ∧
    resultHasFields (set_number initState ("x")).2 = true ∧
    resultHasFields (clear_selection initState).2 = true ∧
    resultHasFields (errorResult ("No color selected")) = true ∧
    resultHasFields (complete_transmission initState 0).2 = true ∧
    pyLookup ("success") (get_status initState) = Option.none ∧
    pyLookup ("message") (get_status initState) = Option.none :=
  ⟨(C9_success_message_fields initState ("x") 0).1,
   (C9_success_message_fields initState ("x") 0).2.1,
   (C9_success_message_fields initState ("x") 0).2.2.1,
   (C9_success_message_fields initState ("x") 0).2.2.2.1
     (errorResult ("No color selected")) rfl,
   (C9_success_message_fields initState ("x") 0).2.2.2.2.1,
   (C9_success_message_fields initState ("x") 0).2.2.2.2.2.1,
   (C9_success_message_fields initState ("x") 0).2.2.2.2.2.2⟩

/-- C10: `prepare_transmission` mutates no controller field, so running it
leaves the state unchanged and a second consecutive call returns the same
result (same sequence and same total duration). -/
theorem C10_prepare_pure_frame :
    ∀ σ : ControllerState,
      applyOp σ Op.prepare_transmission = σ ∧
      prepare_transmission (applyOp σ Op.prepare_transmission) =
        prepare_transmission σ :=
  fun _ => ⟨rfl, rfl⟩

end FiberTester
